import Mathlib

/-
Verification development for a BMP280 sensor logger (bmp280.py).

The driver's pure core is embedded shallowly: machine bytes are natural
numbers below 256, the datasheet floating-point compensation algorithm is
modelled in exact rational arithmetic (each source statement becomes one
binding, in source order), and the sampling loop, inter-poll wait and record
sink are modelled as explicit state-passing functions over per-iteration
environments that say which bus and sink operations succeed.
-/

namespace BMP280

/-! ### Data model and operations (from bmp280.py) -/

/-- Embeds `_s16` (bmp280.py line 51): reinterpret a 16-bit word as signed. -/
def _s16 (u : ℕ) : ℤ :=
  if u > 32767 then (u : ℤ) - 65536 else (u : ℤ)

/-- The decoded calibration coefficient table returned by `read_calibration`
(bmp280.py lines 69-70): `dig_T1` and `dig_P1` are unsigned words, the other
ten are signed. -/
@[ext]
structure Calib where
  dig_T1 : ℕ
  dig_T2 : ℤ
  dig_T3 : ℤ
  dig_P1 : ℕ
  dig_P2 : ℤ
  dig_P3 : ℤ
  dig_P4 : ℤ
  dig_P5 : ℤ
  dig_P6 : ℤ
  dig_P7 : ℤ
  dig_P8 : ℤ
  dig_P9 : ℤ
  deriving DecidableEq, Repr

/-- Embeds `read_calibration` (bmp280.py lines 54-70) applied to the 24-byte
calibration block the bus read returns: each word is assembled as
`b[k] | (b[k+1] << 8)` exactly as in the source. -/
def read_calibration (b : Fin 24 → ℕ) : Calib where
  dig_T1 := b 0 ||| (b 1 <<< 8)
  dig_T2 := _s16 (b 2 ||| (b 3 <<< 8))
  dig_T3 := _s16 (b 4 ||| (b 5 <<< 8))
  dig_P1 := b 6 ||| (b 7 <<< 8)
  dig_P2 := _s16 (b 8 ||| (b 9 <<< 8))
  dig_P3 := _s16 (b 10 ||| (b 11 <<< 8))
  dig_P4 := _s16 (b 12 ||| (b 13 <<< 8))
  dig_P5 := _s16 (b 14 ||| (b 15 <<< 8))
  dig_P6 := _s16 (b 16 ||| (b 17 <<< 8))
  dig_P7 := _s16 (b 18 ||| (b 19 <<< 8))
  dig_P8 := _s16 (b 20 ||| (b 21 <<< 8))
  dig_P9 := _s16 (b 22 ||| (b 23 <<< 8))

/-- Modelled from the spec (section 4.2): the signed decoding rule
`value = raw16 - 65536` when `raw16 > 32767`, else `value = raw16`. -/
def specSigned (u : ℕ) : ℤ :=
  if u > 32767 then (u : ℤ) - 65536 else (u : ℤ)

/-- Modelled from the spec (section 4.2): `decodeCalibration` reads 12
consecutive little-endian 16-bit words in the order T1, T2, T3, P1, P2..P9,
with T1 and P1 unsigned and the rest signed, words assembled arithmetically
as `b[2k] + 256 * b[2k+1]`. -/
def decodeCalibration_spec (b : Fin 24 → ℕ) : Calib where
  dig_T1 := b 0 + 256 * b 1
  dig_T2 := specSigned (b 2 + 256 * b 3)
  dig_T3 := specSigned (b 4 + 256 * b 5)
  dig_P1 := b 6 + 256 * b 7
  dig_P2 := specSigned (b 8 + 256 * b 9)
  dig_P3 := specSigned (b 10 + 256 * b 11)
  dig_P4 := specSigned (b 12 + 256 * b 13)
  dig_P5 := specSigned (b 14 + 256 * b 15)
  dig_P6 := specSigned (b 16 + 256 * b 17)
  dig_P7 := specSigned (b 18 + 256 * b 19)
  dig_P8 := specSigned (b 20 + 256 * b 21)
  dig_P9 := specSigned (b 22 + 256 * b 23)

/-- Embeds `read_raw` (bmp280.py lines 79-83) applied to the 6-byte
measurement block: returns the pair `(adc_t, adc_p)` with the pressure count
taken from bytes 0-2 and the temperature count from bytes 3-5. -/
def read_raw (data : Fin 6 → ℕ) : ℕ × ℕ :=
  let adc_p := (data 0 <<< 12) ||| (data 1 <<< 4) ||| (data 2 >>> 4)
  let adc_t := (data 3 <<< 12) ||| (data 4 <<< 4) ||| (data 5 >>> 4)
  (adc_t, adc_p)

/-- Modelled from the spec (section 3, RawSample): a 20-bit count is assembled
from three register bytes as `(MSB << 12) | (LSB << 4) | (XLSB >> 4)`. -/
def assemble20 (msb lsb xlsb : ℕ) : ℕ :=
  (msb <<< 12) ||| (lsb <<< 4) ||| (xlsb >>> 4)

/-- Embeds `compensate` (bmp280.py lines 85-112) in exact rational
arithmetic, one binding per source statement in source order. Returns
`(temp_c, pres_hpa)`. -/
def compensate (adc_t adc_p : ℕ) (c : Calib) : ℚ × ℚ :=
  let var1 : ℚ := ((adc_t : ℚ) / 16384 - (c.dig_T1 : ℚ) / 1024) * (c.dig_T2 : ℚ)
  let var2 : ℚ := (((adc_t : ℚ) / 131072 - (c.dig_T1 : ℚ) / 8192) ^ 2) * (c.dig_T3 : ℚ)
  let t_fine := var1 + var2
  let temp_c := t_fine / 5120
  let var1 := t_fine / 2 - 64000
  let var2 := var1 * var1 * (c.dig_P6 : ℚ) / 32768
  let var2 := var2 + var1 * (c.dig_P5 : ℚ) * 2
  let var2 := var2 / 4 + (c.dig_P4 : ℚ) * 65536
  let var1 := ((c.dig_P3 : ℚ) * var1 * var1 / 524288 + (c.dig_P2 : ℚ) * var1) / 524288
  let var1 := (1 + var1 / 32768) * (c.dig_P1 : ℚ)
  let pres_pa : ℚ :=
    if var1 = 0 then 0
    else
      let p := 1048576 - (adc_p : ℚ)
      let p := (p - var2 / 4096) * 6250 / var1
      let var1 := (c.dig_P9 : ℚ) * p * p / 2147483648
      let var2 := p * (c.dig_P8 : ℚ) / 32768
      let p := p + (var1 + var2 + (c.dig_P7 : ℚ)) / 16
      p
  let pres_hpa := pres_pa / 100
  (temp_c, pres_hpa)

/-- The pressure denominator term of `compensate` (bmp280.py lines 89-100):
the value of `var1` tested by the `if var1 == 0` guard on line 101, computed
by the same statement sequence. -/
def presDenom (adc_t : ℕ) (c : Calib) : ℚ :=
  let var1 : ℚ := ((adc_t : ℚ) / 16384 - (c.dig_T1 : ℚ) / 1024) * (c.dig_T2 : ℚ)
  let var2 : ℚ := (((adc_t : ℚ) / 131072 - (c.dig_T1 : ℚ) / 8192) ^ 2) * (c.dig_T3 : ℚ)
  let t_fine := var1 + var2
  let var1 := t_fine / 2 - 64000
  let var1 := ((c.dig_P3 : ℚ) * var1 * var1 / 524288 + (c.dig_P2 : ℚ) * var1) / 524288
  let var1 := (1 + var1 / 32768) * (c.dig_P1 : ℚ)
  var1

/-- Modelled from the spec (section 4.3): the compensation formula sequence
exactly as the spec writes it, squares written with the power operator and
the two `var2` accumulation statements merged as in the spec text. -/
def compensate_spec (adc_t adc_p : ℕ) (c : Calib) : ℚ × ℚ :=
  let var1 : ℚ := ((adc_t : ℚ) / 16384 - (c.dig_T1 : ℚ) / 1024) * (c.dig_T2 : ℚ)
  let var2 : ℚ := (((adc_t : ℚ) / 131072 - (c.dig_T1 : ℚ) / 8192) ^ 2) * (c.dig_T3 : ℚ)
  let t_fine := var1 + var2
  let tempC := t_fine / 5120
  let var1 := t_fine / 2 - 64000
  let var2 := var1 ^ 2 * (c.dig_P6 : ℚ) / 32768 + var1 * (c.dig_P5 : ℚ) * 2
  let var2 := var2 / 4 + (c.dig_P4 : ℚ) * 65536
  let var1 := ((c.dig_P3 : ℚ) * var1 ^ 2 / 524288 + (c.dig_P2 : ℚ) * var1) / 524288
  let var1 := (1 + var1 / 32768) * (c.dig_P1 : ℚ)
  let pressureHpa : ℚ :=
    if var1 = 0 then 0
    else
      let p := 1048576 - (adc_p : ℚ)
      let p := (p - var2 / 4096) * 6250 / var1
      let var1 := (c.dig_P9 : ℚ) * p ^ 2 / 2147483648
      let var2 := p * (c.dig_P8 : ℚ) / 32768
      let p := p + (var1 + var2 + (c.dig_P7 : ℚ)) / 16
      p / 100
  (tempC, pressureHpa)

/-! ### The sampling loop, wait and record sink (from bmp280.py main) -/

/-- Embeds `INTERVAL_S` (bmp280.py line 14): the configured poll interval in
seconds. -/
def INTERVAL_S : ℚ := 300

/-- Embeds the sleep argument on line 159: `min(0.5, end - time.time())`. -/
def sleepSlice (e t : ℚ) : ℚ := min (1 / 2 : ℚ) (e - t)

/-- Embeds the inner wait loop (bmp280.py lines 158-159) over a deterministic
clock: `t` is the current time, `e` the deadline, `stop` the STOP flag as a
function of time. The loop re-checks the flag before every slice, sleeps
`min(0.5, e - t)`, and returns the time at which it exits. -/
def waitLoop (stop : ℚ → Bool) (e : ℚ) (t : ℚ) : ℚ :=
  if stop t = true ∨ e ≤ t then t
  else waitLoop stop e (t + sleepSlice e t)
termination_by (⌈2 * (e - t)⌉).toNat
decreasing_by
  rename_i h
  push_neg at h
  unfold sleepSlice
  rcases le_or_lt (e - t) (1 / 2) with hle | hgt
  case inl =>
    have h1 : min (1 / 2 : ℚ) (e - t) = e - t := min_eq_right hle
    rw [h1]
    have h2 : (⌈2 * (e - (t + (e - t)))⌉ : ℤ) = 0 := by norm_num
    have h3 : (0 : ℤ) < ⌈2 * (e - t)⌉ := by
      apply Int.ceil_pos.mpr
      have ht : t < e := h.2
      linarith
    omega
  case inr =>
    have h1 : min (1 / 2 : ℚ) (e - t) = 1 / 2 := min_eq_left (le_of_lt hgt)
    rw [h1]
    have h2 : 2 * (e - (t + 1 / 2)) = 2 * (e - t) - 1 := by ring
    rw [h2]
    have h3 : (⌈2 * (e - t) - 1⌉ : ℤ) = ⌈2 * (e - t)⌉ - 1 := by
      simp
    have h4 : (1 : ℤ) < ⌈2 * (e - t)⌉ := by
      apply Int.lt_ceil.mpr
      push_cast
      linarith
    omega

/-- The time fields of a local timestamp, as consumed by the strftime format
string of `ts` (bmp280.py line 115). -/
structure Timestamp where
  year : ℕ
  month : ℕ
  day : ℕ
  hour : ℕ
  minute : ℕ
  second : ℕ

/-- Modelled from the spec (section 6): a zero-padded two-digit decimal
field of the timestamp format. -/
def pad2 (n : ℕ) : String :=
  String.mk [Nat.digitChar (n / 10 % 10), Nat.digitChar (n % 10)]

/-- Modelled from the spec (section 6): a zero-padded four-digit decimal
field of the timestamp format. -/
def pad4 (n : ℕ) : String :=
  String.mk [Nat.digitChar (n / 1000 % 10), Nat.digitChar (n / 100 % 10),
    Nat.digitChar (n / 10 % 10), Nat.digitChar (n % 10)]

/-- Embeds `ts` (bmp280.py lines 114-115); the strftime rendering of the
format string on line 115 is modelled from the spec (section 6): local
timestamp as `YYYY-MM-DD HH:MM:SS` with zero-padded decimal fields. -/
def ts (t : Timestamp) : String :=
  pad4 t.year ++ ("-") ++ pad2 t.month ++ ("-") ++ pad2 t.day ++ (" ")
    ++ pad2 t.hour ++ (":") ++ pad2 t.minute ++ (":") ++ pad2 t.second

/-- Modelled from the spec (section 6): the fixed-point rendering with
exactly three fractional digits performed by the `.3f` format specifier on
bmp280.py line 147 — value rounded to a multiple of 1/1000, rendered as an
optional sign, the integer part, a dot, and exactly three digits. -/
def fmt3 (q : ℚ) : String :=
  let n : ℤ := round (q * 1000)
  let sign : String := if n < 0 then ("-") else ("")
  sign ++ toString (n.natAbs / 1000) ++ (".") ++ String.mk
    [Nat.digitChar (n.natAbs / 100 % 10), Nat.digitChar (n.natAbs / 10 % 10),
     Nat.digitChar (n.natAbs % 10)]

/-- Embeds the header row written on bmp280.py line 140. -/
def headerRow : List String := [("timestamp"), ("temp_C"), ("pressure_hPa")]

/-- Embeds the success record written on bmp280.py line 147: timestamp,
temperature and pressure, the numeric fields rendered with three fractional
digits. -/
def okRow (cal : Calib) (stamp : String) (bytes : Fin 6 → ℕ) : List String :=
  let adc := read_raw bytes
  let r := compensate adc.1 adc.2 cal
  [stamp, fmt3 r.1, fmt3 r.2]

/-- Embeds the sentinel record written on bmp280.py line 152: timestamp and
the literal token nan for both numeric fields. -/
def nanRow (stamp : String) : List String := [stamp, ("nan"), ("nan")]

/-- The environment of one loop iteration: what the bus read returns (none
when the read raises) and which of the four sink operations of the iteration
succeed. -/
structure IterEnv where
  raw : Option (Fin 6 → ℕ)
  writeOk : Bool
  flushOk : Bool
  nanWriteOk : Bool
  nanFlushOk : Bool

/-- Embeds the try body (bmp280.py lines 144-149): returns the records the
body appended to the sink and whether it raised. A failed read or a failed
success-record write appends nothing and raises; a flush failure after a
successful write leaves the written record and raises. -/
def tryBody (cal : Calib) (stamp : String) (env : IterEnv) : List (List String) × Bool :=
  match env.raw with
  | none => ([], true)
  | some bytes =>
    if env.writeOk = false then ([], true)
    else if env.flushOk = false then ([okRow cal stamp bytes], true)
    else ([okRow cal stamp bytes], false)

/-- Embeds one iteration of the while body (bmp280.py lines 143-154): if the
try body raises, the except branch writes the sentinel record and flushes;
a failure of either of those two operations escapes the iteration (result
none); otherwise the iteration returns the records appended this cycle. -/
def runIteration (cal : Calib) (stamp : String) (env : IterEnv) :
    Option (List (List String)) :=
  match tryBody cal stamp env with
  | (rows, false) => some rows
  | (rows, true) =>
    if env.nanWriteOk = false then none
    else if env.nanFlushOk = false then none
    else some (rows ++ [nanRow stamp])

/-- Modelled from the spec (section 4.5): the sampling-loop states. -/
inductive LoopState
  | RUNNING
  | STOPPING
  | STOPPED
  deriving DecidableEq

/-- Modelled from the spec (section 4.5): the state observed at a loop head,
as a function of the STOP flag checked there (bmp280.py line 143). -/
def loopStateAt (stop : ℕ → Bool) (i : ℕ) : LoopState :=
  if stop i then LoopState.STOPPING else LoopState.RUNNING

/-- Embeds the while loop (bmp280.py lines 143-159) over a finite trace of
per-iteration environments: the STOP flag and the timestamp clock are
functions of the iteration index; result none means an exception escaped
the loop. -/
def runLoop (cal : Calib) (clock : ℕ → Timestamp) (stop : ℕ → Bool) :
    List IterEnv → ℕ → Option (List (List String))
  | [], _ => some []
  | env :: rest, i =>
    if stop i then some []
    else
      match runIteration cal (ts (clock i)) env with
      | none => none
      | some rows =>
        Option.map (fun more => rows ++ more) (runLoop cal clock stop rest (i + 1))

/-- Embeds the with-block (bmp280.py lines 138-159): exactly one header row
is written first, then the loop's records follow in order. -/
def mainOutput (cal : Calib) (clock : ℕ → Timestamp) (stop : ℕ → Bool)
    (envs : List IterEnv) : Option (List (List String)) :=
  Option.map (fun rows => headerRow :: rows) (runLoop cal clock stop envs 0)

/-- Environment of an iteration whose bus read raises and whose sink
operations all succeed. -/
def readFailEnv : IterEnv := ⟨none, true, true, true, true⟩

/-- Embeds bmp280.py line 157: the wait deadline computed after the
try/except, the same expression whatever the iteration's outcome was. -/
def iterationWaitDeadline (_env : IterEnv) (now : ℚ) : ℚ := now + INTERVAL_S

/-! ### Concrete fixtures -/

/-- The reference calibration vector of the spec (section 8). -/
def refCalib : Calib :=
  ⟨27504, 26435, -1000, 36477, -10685, 3024, 2855, 140, -7, 15500, -14600, 6000⟩

/-- Calibration set with every coefficient zero; its pressure denominator
term vanishes for every raw sample. -/
def zeroCalib : Calib := ⟨0, 0, 0, 0, 0, 0, 0, 0, 0, 0, 0, 0⟩

/-- Calibration block whose T1 word is 0x0000 and whose P1 word is 0xFFFF,
with signed words 0x7FFF (T2), 0x8000 (T3), 0xFFFF (P2), 0x0000 (others). -/
def blockA : Fin 24 → ℕ :=
  ![0, 0, 255, 127, 0, 128, 255, 255, 255, 255, 0, 0,
    0, 0, 0, 0, 0, 0, 0, 0, 0, 0, 0, 0]

/-- Calibration block whose T1 word is 0x7FFF and whose P1 word is 0x8000. -/
def blockB : Fin 24 → ℕ :=
  ![255, 127, 0, 0, 0, 0, 0, 128, 0, 0, 0, 0,
    0, 0, 0, 0, 0, 0, 0, 0, 0, 0, 0, 0]

/-- A 6-byte raw measurement block fixture. -/
def rawBlockA : Fin 6 → ℕ := ![128, 64, 207, 255, 255, 255]

/-- A concrete timestamp fixture. -/
def tsW : Timestamp := ⟨2026, 10, 12, 0, 0, 0⟩

/-- Environment of an iteration whose bus read succeeds but whose
success-record write raises, with a functioning except branch. -/
def writeFailEnv : IterEnv := ⟨some rawBlockA, false, true, true, true⟩

/-! ### Helper lemmas -/

/-- Assembling a little-endian word by `a ||| (c <<< 8)` equals `a + 256 * c`
when `a` is a byte. -/
lemma lor_shift8 (a c : ℕ) (h : a < 256) : a ||| (c <<< 8) = a + 256 * c := by
  rw [Nat.shiftLeft_eq, Nat.lor_comm]
  have h2 : a < 2 ^ 8 := h
  have h3 := Nat.mul_add_lt_is_or h2 c
  have h4 : c * 2 ^ 8 = 2 ^ 8 * c := Nat.mul_comm _ _
  rw [h4, ← h3]
  omega

/-- Arithmetic characterisation of the 20-bit assembly for byte inputs. -/
lemma assemble20_eq (m l x : ℕ) (_hm : m < 256) (hl : l < 256) (hx : x < 256) :
    assemble20 m l x = 4096 * m + 16 * l + x / 16 := by
  unfold assemble20
  have h1 : l <<< 4 = 16 * l := by rw [Nat.shiftLeft_eq]; ring
  have h2 : m <<< 12 = 2 ^ 12 * m := by rw [Nat.shiftLeft_eq]; ring
  have h3 : x >>> 4 = x / 16 := by rw [Nat.shiftRight_eq_div_pow]
  rw [h1, h2, h3]
  have h4 : 16 * l < 2 ^ 12 := by omega
  have h5 := Nat.mul_add_lt_is_or h4 m
  rw [← h5]
  have h6 : 2 ^ 12 * m + 16 * l = 2 ^ 4 * (2 ^ 8 * m + l) := by ring
  rw [h6]
  have h7 : x / 16 < 2 ^ 4 := by omega
  have h8 := Nat.mul_add_lt_is_or h7 (2 ^ 8 * m + l)
  rw [← h8]
  ring

/-- The source decode agrees with the spec decode on byte-valued blocks. -/
lemma read_calibration_eq (b : Fin 24 → ℕ) (hb : ∀ i, b i < 256) :
    read_calibration b = decodeCalibration_spec b := by
  ext <;>
    simp only [read_calibration, decodeCalibration_spec, _s16, specSigned] <;>
    rw [lor_shift8 _ _ (hb _)]

/-- Range of the signed reinterpretation on 16-bit inputs. -/
lemma s16_range (u : ℕ) (hu : u < 65536) : -32768 ≤ _s16 u ∧ _s16 u ≤ 32767 := by
  unfold _s16
  split <;> omega

/-- A little-endian word of two bytes is at most 65535. -/
lemma word_le (a c : ℕ) (ha : a < 256) (hc : c < 256) : a ||| (c <<< 8) ≤ 65535 := by
  rw [lor_shift8 a c ha]
  omega

/-- Range of a signed field decoded from two bytes. -/
lemma s16_word_range (a c : ℕ) (ha : a < 256) (hc : c < 256) :
    -32768 ≤ _s16 (a ||| (c <<< 8)) ∧ _s16 (a ||| (c <<< 8)) ≤ 32767 := by
  refine s16_range _ ?_
  have := word_le a c ha hc
  omega

/-- Duplicate of the pressure tail of `compensate` and of `compensate_spec`
over an arbitrary fine-temperature value, used to compare the two. -/
lemma presTail_eq (tf ap q1 q2 q3 q4 q5 q6 q7 q8 q9 : ℚ) :
    (let var1 := tf / 2 - 64000
     let var2 := var1 * var1 * q6 / 32768
     let var2 := var2 + var1 * q5 * 2
     let var2 := var2 / 4 + q4 * 65536
     let var1 := (q3 * var1 * var1 / 524288 + q2 * var1) / 524288
     let var1 := (1 + var1 / 32768) * q1
     let pres_pa : ℚ :=
       if var1 = 0 then 0
       else
         let p := 1048576 - ap
         let p := (p - var2 / 4096) * 6250 / var1
         let var1 := q9 * p * p / 2147483648
         let var2 := p * q8 / 32768
         let p := p + (var1 + var2 + q7) / 16
         p
     pres_pa / 100)
    = (let var1 := tf / 2 - 64000
       let var2 := var1 ^ 2 * q6 / 32768 + var1 * q5 * 2
       let var2 := var2 / 4 + q4 * 65536
       let var1 := (q3 * var1 ^ 2 / 524288 + q2 * var1) / 524288
       let var1 := (1 + var1 / 32768) * q1
       if var1 = 0 then 0
       else
         let p := 1048576 - ap
         let p := (p - var2 / 4096) * 6250 / var1
         let var1 := q9 * p ^ 2 / 2147483648
         let var2 := p * q8 / 32768
         let p := p + (var1 + var2 + q7) / 16
         p / 100) := by
  dsimp only
  have hv : (1 + ((q3 * (tf / 2 - 64000) * (tf / 2 - 64000) / 524288
        + q2 * (tf / 2 - 64000)) / 524288) / 32768) * q1
      = (1 + ((q3 * (tf / 2 - 64000) ^ 2 / 524288
        + q2 * (tf / 2 - 64000)) / 524288) / 32768) * q1 := by
    ring
  rw [hv]
  split_ifs with h
  case pos => norm_num
  case neg => ring

/-- An iteration whose bus read raises and whose sink works appends exactly
the sentinel record and returns normally. -/
lemma runIteration_readFail (cal : Calib) (stamp : String) :
    runIteration cal stamp readFailEnv = some [nanRow stamp] := rfl

/-- Running the loop on a trace of read failures with the STOP flag unset
appends one sentinel record per iteration, stamped in order. -/
lemma runLoop_replicate_fail (cal : Calib) (clock : ℕ → Timestamp) :
    ∀ (n i : ℕ), runLoop cal clock (fun _ => false) (List.replicate n readFailEnv) i
      = some ((List.range n).map fun k => nanRow (ts (clock (i + k)))) := by
  intro n
  induction n with
  | zero => intro i; rfl
  | succ m ih =>
    intro i
    rw [List.replicate_succ, List.range_succ_eq_map]
    simp only [runLoop, Bool.false_eq_true, if_false, runIteration_readFail,
      ih (i + 1), Option.map_some', List.map_cons, List.map_map]
    simp only [List.singleton_append, Nat.add_zero]
    congr 1
    congr 1
    apply List.map_congr_left
    intro k _
    simp only [Function.comp_apply]
    have hik : i + 1 + k = i + Nat.succ k := by omega
    rw [hik]

/-- A digit character produced from a residue modulo 10 is a decimal digit. -/
lemma digitChar_mod_isDigit (x : ℕ) : (Nat.digitChar (x % 10)).isDigit = true := by
  have h : x % 10 < 10 := Nat.mod_lt _ (by norm_num)
  set r := x % 10 with hr
  interval_cases r <;> decide

/-- When the try body raises and the except branch works, the iteration
returns normally having also appended the sentinel record. -/
lemma iteration_contained (cal : Calib) (stamp : String) (env : IterEnv)
    (h2 : env.nanWriteOk = true) (h3 : env.nanFlushOk = true) :
    (tryBody cal stamp env).2 = true →
      runIteration cal stamp env = some ((tryBody cal stamp env).1 ++ [nanRow stamp]) := by
  rcases env with ⟨raw, w, f, nw, nf⟩
  cases raw <;> cases w <;> cases f <;> cases nw <;> cases nf <;>
    simp_all [runIteration, tryBody]

/-- An iteration escapes exactly when its try body raises and the sentinel
write or the failure-branch flush fails. -/
lemma iteration_escapes (cal : Calib) (stamp : String) (env : IterEnv) :
    runIteration cal stamp env = none ↔
      ((tryBody cal stamp env).2 = true ∧
        (env.nanWriteOk = false ∨ env.nanFlushOk = false)) := by
  rcases env with ⟨raw, w, f, nw, nf⟩
  cases raw <;> cases w <;> cases f <;> cases nw <;> cases nf <;>
    simp_all [runIteration, tryBody]

/-- Every record appended by one iteration is the sentinel record or a
success record for that iteration's timestamp. -/
lemma iteration_rows_shape (cal : Calib) (stamp : String) (env : IterEnv)
    (rows : List (List String)) (h : runIteration cal stamp env = some rows) :
    ∀ r ∈ rows, r = nanRow stamp ∨ ∃ bytes, r = okRow cal stamp bytes := by
  rcases env with ⟨raw, w, f, nw, nf⟩
  cases raw <;> cases w <;> cases f <;> cases nw <;> cases nf <;>
    simp_all [runIteration, tryBody] <;>
    rcases h with rfl | rfl <;> simp_all

/-- Every record the loop appends is a sentinel record or a success record,
stamped with some iteration's timestamp. -/
lemma runLoop_rows_shape (cal : Calib) (clock : ℕ → Timestamp) (stop : ℕ → Bool) :
    ∀ (envs : List IterEnv) (i : ℕ) (rows : List (List String)),
      runLoop cal clock stop envs i = some rows →
      ∀ r ∈ rows, ∃ k : ℕ,
        r = nanRow (ts (clock k)) ∨ ∃ bytes, r = okRow cal (ts (clock k)) bytes := by
  intro envs
  induction envs with
  | nil =>
    intro i rows h r hr
    simp only [runLoop] at h
    cases h
    simp at hr
  | cons env rest ih =>
    intro i rows h r hr
    simp only [runLoop] at h
    by_cases hs : stop i = true
    case pos =>
      rw [if_pos hs] at h
      cases h
      simp at hr
    case neg =>
      rw [if_neg hs] at h
      cases hiter : runIteration cal (ts (clock i)) env with
      | none => rw [hiter] at h; cases h
      | some rows1 =>
        rw [hiter] at h
        cases hrest : runLoop cal clock stop rest (i + 1) with
        | none => rw [hrest] at h; cases h
        | some rows2 =>
          rw [hrest] at h
          simp only [Option.map_some'] at h
          cases h
          rcases List.mem_append.mp hr with h1 | h2
          case inl =>
            refine ⟨i, ?_⟩
            exact iteration_rows_shape cal (ts (clock i)) env rows1 hiter r h1
          case inr =>
            exact ih (i + 1) rows2 hrest r h2

/-- Rendering with three fractional digits: the rendered string is a prefix,
a dot, and exactly three digit characters. -/
lemma fmt3_three_frac_digits (q : ℚ) :
    ∃ pre : String, ∃ d1 d2 d3 : Char,
      fmt3 q = pre ++ (".") ++ String.mk [d1, d2, d3]
      ∧ d1.isDigit = true ∧ d2.isDigit = true ∧ d3.isDigit = true := by
  refine ⟨(if (round (q * 1000) : ℤ) < 0 then ("-") else ("")) ++
      toString ((round (q * 1000) : ℤ).natAbs / 1000),
    Nat.digitChar ((round (q * 1000) : ℤ).natAbs / 100 % 10),
    Nat.digitChar ((round (q * 1000) : ℤ).natAbs / 10 % 10),
    Nat.digitChar ((round (q * 1000) : ℤ).natAbs % 10),
    rfl, digitChar_mod_isDigit _, digitChar_mod_isDigit _, digitChar_mod_isDigit _⟩

/-- The rendered timestamp has the shape `YYYY-MM-DD HH:MM:SS`: fourteen
digit characters with dashes, a space and colons at fixed positions, and
total length 19. -/
lemma ts_shape (t : Timestamp) :
    ∃ c : Fin 14 → Char, (∀ j, (c j).isDigit = true)
      ∧ ts t = String.mk [c 0, c 1, c 2, c 3, '-', c 4, c 5, '-', c 6, c 7,
          ' ', c 8, c 9, ':', c 10, c 11, ':', c 12, c 13]
      ∧ (ts t).length = 19 := by
  refine ⟨![Nat.digitChar (t.year / 1000 % 10), Nat.digitChar (t.year / 100 % 10),
      Nat.digitChar (t.year / 10 % 10), Nat.digitChar (t.year % 10),
      Nat.digitChar (t.month / 10 % 10), Nat.digitChar (t.month % 10),
      Nat.digitChar (t.day / 10 % 10), Nat.digitChar (t.day % 10),
      Nat.digitChar (t.hour / 10 % 10), Nat.digitChar (t.hour % 10),
      Nat.digitChar (t.minute / 10 % 10), Nat.digitChar (t.minute % 10),
      Nat.digitChar (t.second / 10 % 10), Nat.digitChar (t.second % 10)], ?_, ?_, ?_⟩
  case refine_1 =>
    intro j
    fin_cases j <;> exact digitChar_mod_isDigit _
  case refine_2 => rfl
  case refine_3 => rfl

/-- A rendered timestamp never equals the header's first field. -/
lemma ts_ne_header_field (t : Timestamp) : ts t ≠ ("timestamp") := by
  intro h
  have h2 := congrArg String.length h
  obtain ⟨c, _, _, hlen⟩ := ts_shape t
  rw [hlen] at h2
  exact absurd h2 (by decide)

/-! ### Claim theorems -/

/-- C1: for every raw ADC pair and every calibration set, `compensate`
computes the temperature and the pressure by exactly the multi-step formula
sequence the spec states (temperature via `t_fine`, pressure via the guarded
chain on the same `t_fine`), modelled in exact rational arithmetic with one
binding per operation in the stated order. -/
theorem compensate_refines_spec (adc_t adc_p : ℕ) (c : Calib) :
    compensate adc_t adc_p c = compensate_spec adc_t adc_p c := by
  refine Prod.ext rfl ?_
  exact presTail_eq
    (((adc_t : ℚ) / 16384 - (c.dig_T1 : ℚ) / 1024) * (c.dig_T2 : ℚ)
      + (((adc_t : ℚ) / 131072 - (c.dig_T1 : ℚ) / 8192) ^ 2) * (c.dig_T3 : ℚ))
    (adc_p : ℚ) (c.dig_P1 : ℚ) (c.dig_P2 : ℚ) (c.dig_P3 : ℚ) (c.dig_P4 : ℚ)
    (c.dig_P5 : ℚ) (c.dig_P6 : ℚ) (c.dig_P7 : ℚ) (c.dig_P8 : ℚ) (c.dig_P9 : ℚ)

/-- C2: on the reference vector (T1=27504, ..., P9=6000, adc_t=519888,
adc_p=415148) `compensate` returns a temperature within 0.1 of 25.08 degrees
Celsius and a pressure within 0.1 of 1006.53 hPa. -/
theorem compensate_reference_vector :
    2508 / 100 - 1 / 10 ≤ (compensate 519888 415148 refCalib).1 ∧
    (compensate 519888 415148 refCalib).1 ≤ 2508 / 100 + 1 / 10 ∧
    100653 / 100 - 1 / 10 ≤ (compensate 519888 415148 refCalib).2 ∧
    (compensate 519888 415148 refCalib).2 ≤ 100653 / 100 + 1 / 10 := by
  norm_num [compensate, refCalib]

/-- C3: `compensate` is a total function, and whenever the pressure
denominator term evaluates to zero it returns pressure 0 through the guarded
branch, never performing the guarded division. -/
theorem compensate_zero_denominator (adc_t adc_p : ℕ) (c : Calib)
    (h : presDenom adc_t c = 0) :
    (compensate adc_t adc_p c).2 = 0 := by
  simp only [compensate, presDenom] at h ⊢
  rw [if_pos h]
  norm_num

/-- Witness for C3: the all-zero calibration set makes the pressure
denominator term vanish, and `compensate` then returns pressure 0. -/
theorem compensate_zero_denominator_witness :
    presDenom 100 zeroCalib = 0 ∧ (compensate 100 200 zeroCalib).2 = 0 := by
  have h : presDenom 100 zeroCalib = 0 := by norm_num [presDenom, zeroCalib]
  exact ⟨h, compensate_zero_denominator 100 200 zeroCalib h⟩

/-- C4: on every 24-byte block, `read_calibration` decodes 12 consecutive
little-endian 16-bit words in order T1, T2, T3, P1, P2..P9, T1 and P1
unsigned and the rest signed by subtracting 65536 above 32767; the signed
decodings of 0x0000, 0x7FFF, 0x8000, 0xFFFF are 0, 32767, -32768, -1 and
the unsigned words pass through unchanged (0, 32767, 32768, 65535). -/
theorem read_calibration_decodes_spec :
    (∀ b : Fin 24 → ℕ, (∀ i, b i < 256) →
      read_calibration b = decodeCalibration_spec b)
    ∧ _s16 0 = 0 ∧ _s16 32767 = 32767 ∧ _s16 32768 = -32768 ∧ _s16 65535 = -1
    ∧ specSigned 0 = 0 ∧ specSigned 32767 = 32767
    ∧ specSigned 32768 = -32768 ∧ specSigned 65535 = -1
    ∧ (read_calibration blockA).dig_T1 = 0
    ∧ (read_calibration blockA).dig_P1 = 65535
    ∧ (read_calibration blockB).dig_T1 = 32767
    ∧ (read_calibration blockB).dig_P1 = 32768 :=
  ⟨read_calibration_eq, by decide⟩

/-- Witness for C4: the refinement applied to the concrete block `blockA`. -/
theorem read_calibration_decodes_spec_witness :
    (∀ i, blockA i < 256) ∧ read_calibration blockA = decodeCalibration_spec blockA :=
  ⟨by decide, read_calibration_decodes_spec.1 blockA (by decide)⟩

/-- C5: on every 6-byte block the raw sample is the pair of 20-bit counts
with the pressure count assembled from the first three bytes and the
temperature count from the last three, each as
`(MSB << 12) | (LSB << 4) | (XLSB >> 4)`, which on bytes equals
`4096*MSB + 16*LSB + XLSB/16`. -/
theorem read_raw_assembles_spec :
    (∀ data : Fin 6 → ℕ, read_raw data =
      (assemble20 (data 3) (data 4) (data 5),
       assemble20 (data 0) (data 1) (data 2)))
    ∧ (∀ m l x : ℕ, m < 256 → l < 256 → x < 256 →
      assemble20 m l x = 4096 * m + 16 * l + x / 16) :=
  ⟨fun _ => rfl, assemble20_eq⟩

/-- Witness for C5: the assembly characterisation at bytes 128, 64, 207. -/
theorem read_raw_assembles_spec_witness :
    (128 < 256 ∧ 64 < 256 ∧ 207 < 256) ∧
    assemble20 128 64 207 = 4096 * 128 + 16 * 64 + 207 / 16 :=
  ⟨by decide, read_raw_assembles_spec.2 128 64 207 (by decide) (by decide) (by decide)⟩

/-- C6: with the STOP flag unset, a run over n consecutive acquisition
failures appends exactly n records, each with both numeric fields equal to
the nan sentinel, the loop never leaves RUNNING, and the wait deadline after
a failed poll is the same `now + INTERVAL_S` as after any other poll. -/
theorem loop_survives_read_failures (n : ℕ) (cal : Calib) (clock : ℕ → Timestamp) :
    runLoop cal clock (fun _ => false) (List.replicate n readFailEnv) 0
      = some ((List.range n).map fun k => nanRow (ts (clock k)))
    ∧ ((List.range n).map fun k => nanRow (ts (clock k))).length = n
    ∧ (∀ s : String, nanRow s = [s, ("nan"), ("nan")])
    ∧ (∀ k : ℕ, loopStateAt (fun _ => false) k = LoopState.RUNNING)
    ∧ (∀ (e1 e2 : IterEnv) (now : ℚ),
        iterationWaitDeadline e1 now = iterationWaitDeadline e2 now
          ∧ iterationWaitDeadline e1 now = now + INTERVAL_S) := by
  refine ⟨?_, by simp, fun s => rfl, fun k => rfl, fun e1 e2 now => ⟨rfl, rfl⟩⟩
  have h := runLoop_replicate_fail cal clock n 0
  simpa using h

/-- C7: each inter-poll sleep slice is at most half a second and the STOP
flag is re-checked before every slice, so when a shutdown request becomes
visible at time s during the wait, the wait loop exits no later than
s + 0.5. -/
theorem shutdown_latency_bounded :
    (∀ e t : ℚ, sleepSlice e t ≤ 1 / 2)
    ∧ (∀ s e t0 : ℚ, t0 ≤ s →
        waitLoop (fun t => decide (s ≤ t)) e t0 ≤ s + 1 / 2) := by
  constructor
  case left =>
    intro e t
    exact min_le_left _ _
  case right =>
    intro s e t0 h
    have key : ∀ t : ℚ, t ≤ s + 1 / 2 →
        waitLoop (fun u => decide (s ≤ u)) e t ≤ s + 1 / 2 := by
      refine waitLoop.induct (fun u => decide (s ≤ u)) e
        (fun t => t ≤ s + 1 / 2 → waitLoop (fun u => decide (s ≤ u)) e t ≤ s + 1 / 2)
        ?_ ?_
      case refine_1 =>
        intro t hc ht
        rw [waitLoop, if_pos hc]
        exact ht
      case refine_2 =>
        intro t hc ih _
        rw [waitLoop, if_neg hc]
        apply ih
        simp only [decide_eq_true_eq, not_or, not_le] at hc
        have h1 : sleepSlice e t ≤ 1 / 2 := min_le_left _ _
        have h2 : t < s := hc.1
        linarith
    exact key t0 (by linarith)

/-- Witness for C7: a stop request at time 1 during a wait that started at
time 0 with deadline 300 is honoured by time 1.5. -/
theorem shutdown_latency_bounded_witness :
    (0 : ℚ) ≤ 1 ∧ waitLoop (fun t => decide ((1 : ℚ) ≤ t)) 300 0 ≤ 1 + 1 / 2 :=
  ⟨by norm_num, shutdown_latency_bounded.2 1 300 0 (by norm_num)⟩

/-- C8: whatever terminated run is observed, the output stream is exactly
one header row naming timestamp, temp_C, pressure_hPa followed by one record
per poll, each record carrying a YYYY-MM-DD HH:MM:SS timestamp and either
two numeric fields rendered with exactly three fractional digits or the
literal token nan for both fields, and no record equals the header. -/
theorem output_format (cal : Calib) (clock : ℕ → Timestamp) (stop : ℕ → Bool)
    (envs : List IterEnv) (out : List (List String))
    (h : mainOutput cal clock stop envs = some out) :
    (∃ rows, out = headerRow :: rows
      ∧ ∀ r ∈ rows, r ≠ headerRow ∧ ∃ k : ℕ,
          r = nanRow (ts (clock k))
          ∨ ∃ a b : ℚ, r = [ts (clock k), fmt3 a, fmt3 b])
    ∧ headerRow = [("timestamp"), ("temp_C"), ("pressure_hPa")]
    ∧ (∀ s : String, nanRow s = [s, ("nan"), ("nan")])
    ∧ (∀ q : ℚ, ∃ pre : String, ∃ d1 d2 d3 : Char,
        fmt3 q = pre ++ (".") ++ String.mk [d1, d2, d3]
        ∧ d1.isDigit = true ∧ d2.isDigit = true ∧ d3.isDigit = true)
    ∧ (∀ t : Timestamp, ∃ c : Fin 14 → Char, (∀ j, (c j).isDigit = true)
        ∧ ts t = String.mk [c 0, c 1, c 2, c 3, '-', c 4, c 5, '-', c 6, c 7,
            ' ', c 8, c 9, ':', c 10, c 11, ':', c 12, c 13]
        ∧ (ts t).length = 19) := by
  refine ⟨?_, rfl, fun s => rfl, fmt3_three_frac_digits, ts_shape⟩
  unfold mainOutput at h
  cases hrl : runLoop cal clock stop envs 0 with
  | none =>
    rw [hrl] at h
    cases h
  | some rows =>
    rw [hrl] at h
    simp only [Option.map_some'] at h
    cases h
    refine ⟨rows, rfl, ?_⟩
    intro r hr
    obtain ⟨k, hk⟩ := runLoop_rows_shape cal clock stop envs 0 rows hrl r hr
    constructor
    case left =>
      rcases hk with hnan | ⟨bytes, hok⟩
      case inl =>
        rw [hnan]
        simp only [nanRow, headerRow, ne_eq, List.cons.injEq]
        rintro ⟨hc, -⟩
        exact ts_ne_header_field _ hc
      case inr =>
        rw [hok]
        simp only [okRow, headerRow, ne_eq, List.cons.injEq]
        rintro ⟨hc, -⟩
        exact ts_ne_header_field _ hc
    case right =>
      refine ⟨k, ?_⟩
      rcases hk with hnan | ⟨bytes, hok⟩
      case inl => exact Or.inl hnan
      case inr =>
        refine Or.inr ⟨(compensate (read_raw bytes).1 (read_raw bytes).2 cal).1,
          (compensate (read_raw bytes).1 (read_raw bytes).2 cal).2, ?_⟩
        rw [hok]
        rfl

/-- Witness for C8: the concrete one-failed-poll run and the sentinel-record
field fact obtained from the theorem at it. -/
theorem output_format_witness :
    mainOutput zeroCalib (fun _ => tsW) (fun _ => false) [readFailEnv]
        = some [headerRow, nanRow (ts tsW)]
    ∧ (∀ s : String, nanRow s = [s, ("nan"), ("nan")]) := by
  have h : mainOutput zeroCalib (fun _ => tsW) (fun _ => false) [readFailEnv]
      = some [headerRow, nanRow (ts tsW)] := rfl
  exact ⟨h, (output_format zeroCalib (fun _ => tsW) (fun _ => false) [readFailEnv]
    [headerRow, nanRow (ts tsW)] h).2.2.1⟩

/-- C9: on byte-valued inputs the decoded coefficients are bounded: the
unsigned T1 and P1 lie in [0, 65535], every signed coefficient lies in
[-32768, 32767], and each 20-bit raw count lies in [0, 1048575]. -/
theorem decoded_values_bounded :
    (∀ b : Fin 24 → ℕ, (∀ i, b i < 256) →
      (read_calibration b).dig_T1 ≤ 65535 ∧
      (read_calibration b).dig_P1 ≤ 65535 ∧
      (-32768 ≤ (read_calibration b).dig_T2 ∧ (read_calibration b).dig_T2 ≤ 32767) ∧
      (-32768 ≤ (read_calibration b).dig_T3 ∧ (read_calibration b).dig_T3 ≤ 32767) ∧
      (-32768 ≤ (read_calibration b).dig_P2 ∧ (read_calibration b).dig_P2 ≤ 32767) ∧
      (-32768 ≤ (read_calibration b).dig_P3 ∧ (read_calibration b).dig_P3 ≤ 32767) ∧
      (-32768 ≤ (read_calibration b).dig_P4 ∧ (read_calibration b).dig_P4 ≤ 32767) ∧
      (-32768 ≤ (read_calibration b).dig_P5 ∧ (read_calibration b).dig_P5 ≤ 32767) ∧
      (-32768 ≤ (read_calibration b).dig_P6 ∧ (read_calibration b).dig_P6 ≤ 32767) ∧
      (-32768 ≤ (read_calibration b).dig_P7 ∧ (read_calibration b).dig_P7 ≤ 32767) ∧
      (-32768 ≤ (read_calibration b).dig_P8 ∧ (read_calibration b).dig_P8 ≤ 32767) ∧
      (-32768 ≤ (read_calibration b).dig_P9 ∧ (read_calibration b).dig_P9 ≤ 32767))
    ∧ (∀ d : Fin 6 → ℕ, (∀ i, d i < 256) →
      (read_raw d).1 ≤ 1048575 ∧ (read_raw d).2 ≤ 1048575) := by
  constructor
  case left =>
    intro b hb
    simp only [read_calibration]
    exact ⟨word_le _ _ (hb 0) (hb 1), word_le _ _ (hb 6) (hb 7),
      s16_word_range _ _ (hb 2) (hb 3), s16_word_range _ _ (hb 4) (hb 5),
      s16_word_range _ _ (hb 8) (hb 9), s16_word_range _ _ (hb 10) (hb 11),
      s16_word_range _ _ (hb 12) (hb 13), s16_word_range _ _ (hb 14) (hb 15),
      s16_word_range _ _ (hb 16) (hb 17), s16_word_range _ _ (hb 18) (hb 19),
      s16_word_range _ _ (hb 20) (hb 21), s16_word_range _ _ (hb 22) (hb 23)⟩
  case right =>
    intro d hd
    have h1 : read_raw d =
        (assemble20 (d 3) (d 4) (d 5), assemble20 (d 0) (d 1) (d 2)) := rfl
    rw [h1]
    rw [assemble20_eq _ _ _ (hd 3) (hd 4) (hd 5),
      assemble20_eq _ _ _ (hd 0) (hd 1) (hd 2)]
    have h2 := hd 0
    have h3 := hd 1
    have h4 := hd 3
    have h5 := hd 4
    have h6 := hd 2
    have h7 := hd 5
    constructor <;> simp only <;> omega

/-- Witness for C9: the bounds at the concrete blocks `blockA`, `rawBlockA`. -/
theorem decoded_values_bounded_witness :
    ((∀ i, blockA i < 256) ∧ (read_calibration blockA).dig_T1 ≤ 65535) ∧
    ((∀ i, rawBlockA i < 256) ∧ (read_raw rawBlockA).1 ≤ 1048575) :=
  ⟨⟨by decide, (decoded_values_bounded.1 blockA (by decide)).1⟩,
   ⟨by decide, (decoded_values_bounded.2 rawBlockA (by decide)).1⟩⟩

/-- C10: the try/except containment covers the whole poll body: whenever the
body raises (failed read, failed success-record write, or failed flush) and
the except branch works, the iteration appends the sentinel record instead
(nothing from the body when the read or the write failed) and returns
normally, and the loop then continues with the next iteration; the iteration
escapes — terminating the loop — exactly when the body raised and the
sentinel write or the failure-branch flush itself failed. -/
theorem poll_body_error_containment :
    (∀ (cal : Calib) (stamp : String) (env : IterEnv),
      env.nanWriteOk = true → env.nanFlushOk = true →
      (tryBody cal stamp env).2 = true →
      runIteration cal stamp env = some ((tryBody cal stamp env).1 ++ [nanRow stamp]))
    ∧ (∀ (cal : Calib) (stamp : String) (env : IterEnv),
        env.raw = none ∨ env.writeOk = false → (tryBody cal stamp env).1 = [])
    ∧ (∀ (cal : Calib) (stamp : String) (env : IterEnv),
        runIteration cal stamp env = none ↔
          ((tryBody cal stamp env).2 = true ∧
            (env.nanWriteOk = false ∨ env.nanFlushOk = false)))
    ∧ (∀ (cal : Calib) (clock : ℕ → Timestamp) (stop : ℕ → Bool)
        (env : IterEnv) (rest : List IterEnv) (i : ℕ) (rows : List (List String)),
        stop i = false →
        runIteration cal (ts (clock i)) env = some rows →
        runLoop cal clock stop (env :: rest) i
          = Option.map (fun more => rows ++ more) (runLoop cal clock stop rest (i + 1)))
    ∧ (∀ (cal : Calib) (clock : ℕ → Timestamp) (stop : ℕ → Bool)
        (env : IterEnv) (rest : List IterEnv) (i : ℕ),
        stop i = false →
        runIteration cal (ts (clock i)) env = none →
        runLoop cal clock stop (env :: rest) i = none) := by
  refine ⟨?_, ?_, iteration_escapes, ?_, ?_⟩
  case refine_1 =>
    intro cal stamp env h2 h3 h1
    exact iteration_contained cal stamp env h2 h3 h1
  case refine_2 =>
    intro cal stamp env h
    rcases env with ⟨raw, w, f, nw, nf⟩
    rcases h with h | h <;> cases raw <;> cases w <;> cases f <;>
      simp_all [tryBody]
  case refine_3 =>
    intro cal clock stop env rest i rows hs hiter
    simp only [runLoop, hs, Bool.false_eq_true, if_false, hiter]
  case refine_4 =>
    intro cal clock stop env rest i hs hiter
    simp only [runLoop, hs, Bool.false_eq_true, if_false, hiter]

/-- Witness for C10: an iteration with a failed success-record write and a
working except branch appends the sentinel record and returns normally. -/
theorem poll_body_error_containment_witness :
    (tryBody zeroCalib (ts tsW) writeFailEnv).2 = true
    ∧ runIteration zeroCalib (ts tsW) writeFailEnv
        = some ((tryBody zeroCalib (ts tsW) writeFailEnv).1 ++ [nanRow (ts tsW)]) := by
  have h : (tryBody zeroCalib (ts tsW) writeFailEnv).2 = true := rfl
  exact ⟨h, poll_body_error_containment.1 zeroCalib (ts tsW) writeFailEnv rfl rfl h⟩

end BMP280
